import Mathlib

/-!
Verification development for the icm-dead-video-links repository.

The repository audits video links found in user comments on icheckmovies.com.
This file gives a shallow embedding of the pure decision logic of the source
files `video_host_utils.py` and `find_dead.py`:

* `get_yt_video_status` — the YouTube Data API response classifier;
* `extract_video_ids` specialised to the vimeo pattern — the link extractor;
* `number_of_pages` — the comment-page counter;
* `write_dead_in_profile` / `write_dead_by_users` — the report/ledger writers,
  with the network audit abstracted as a function from user to dead links;
* `sort_output_file` — the report resorter;
* `convert_output_file_to_csv` — the report-to-CSV exporter, including a
  faithful model of the backtracking behaviour of its two regular expressions.

Strings are modelled as `List Char` in the parsing code (Python `str` compares
and iterates by code point, as `List Char` does here).
-/

set_option maxRecDepth 100000

/- ## The YouTube Data API response model (video_host_utils.get_yt_video_status)

The API response shape (spec section 6):
`{items: [{status: {privacyStatus, uploadStatus},
           contentDetails?: {regionRestriction?: {allowed?: [..], blocked?: [..]}}}]}`.
Optional JSON keys become `Option`; the region-code arrays become `List String`. -/

structure YtRegionRestriction where
  allowed : Option (List String)
  blocked : Option (List String)
deriving DecidableEq

structure YtContentDetails where
  regionRestriction : Option YtRegionRestriction
deriving DecidableEq

structure YtStatusObj where
  privacyStatus : String
  uploadStatus : String
deriving DecidableEq

structure YtVideoInfo where
  status : YtStatusObj
  contentDetails : Option YtContentDetails
deriving DecidableEq

structure YtResponse where
  items : List YtVideoInfo
deriving DecidableEq

/-- `video_host_utils.get_yt_video_status`, transliterated from the source.
The Python function returns a status string or raises
`RuntimeError(msg, yt_response)`; the raised case is the `Except.error`
constructor carrying the message and the raw response. -/
def get_yt_video_status (ytid : String) (resp : YtResponse) :
    Except (String × YtResponse) String :=
  match resp.items with
  | [] => Except.ok "not found"
  | video_info :: _ =>
    let status := video_info.status
    if status.privacyStatus = "private" then
      Except.ok "private"
    else if status.uploadStatus ≠ "processed" then
      Except.ok "removed"
    else
      match video_info.contentDetails with
      | none => Except.ok "ok"
      | some cd =>
        match cd.regionRestriction with
        | none => Except.ok "ok"
        | some region =>
          match region.allowed with
          | some allowed =>
            if allowed.length = 0 then Except.ok "blocked everywhere"
            else Except.ok "ok"
          | none =>
            match region.blocked with
            | some blocked =>
              if blocked.length = 249 then Except.ok "blocked everywhere"
              else Except.ok "ok"
            | none =>
              Except.error ("Unexpected Youtube API response for " ++ ytid, resp)

/-- C1: for every rich-status-API response whose status has
`privacyStatus == "private"`, the classifier returns `private` regardless of
any other field of the response (upload status, region restriction lists):
the private check takes priority. -/
theorem yt_private_priority (ytid : String) (resp : YtResponse)
    (info : YtVideoInfo) (rest : List YtVideoInfo)
    (hitems : resp.items = info :: rest)
    (hpriv : info.status.privacyStatus = "private") :
    get_yt_video_status ytid resp = Except.ok "private" := by
  unfold get_yt_video_status
  rw [hitems]
  simp [hpriv]

/-- A private video that simultaneously carries an allow-list, a full
block-list and a non-processed upload status. -/
def respPrivateBlocked : YtResponse :=
  ⟨[⟨⟨"private", "uploaded"⟩,
     some ⟨some ⟨some ["DE"], some (List.replicate 249 "US")⟩⟩⟩]⟩

/-- Witness for C1: the private check wins over the region-restriction data
present in the same response. -/
theorem yt_private_priority_witness :
    get_yt_video_status "PZMywkeqpx4" respPrivateBlocked = Except.ok "private" :=
  yt_private_priority "PZMywkeqpx4" respPrivateBlocked
    ⟨⟨"private", "uploaded"⟩,
     some ⟨some ⟨some ["DE"], some (List.replicate 249 "US")⟩⟩⟩ [] rfl rfl

/-- C2: for a processed, non-private video carrying a region restriction:
with an allow-list present, the classifier returns `blocked everywhere`
exactly when the allow-list is empty and `ok` otherwise; with no allow-list
but a block-list present, it returns `blocked everywhere` exactly when the
block-list length is the assignable-region-code constant 249 and `ok` for
every other length. -/
theorem yt_region_decision (ytid : String) (resp : YtResponse)
    (info : YtVideoInfo) (rest : List YtVideoInfo)
    (cd : YtContentDetails) (region : YtRegionRestriction)
    (hitems : resp.items = info :: rest)
    (hpriv : info.status.privacyStatus ≠ "private")
    (hup : info.status.uploadStatus = "processed")
    (hcd : info.contentDetails = some cd)
    (hrr : cd.regionRestriction = some region) :
    (∀ a, region.allowed = some a →
      get_yt_video_status ytid resp =
        Except.ok (if a.length = 0 then "blocked everywhere" else "ok")) ∧
    (region.allowed = none → ∀ b, region.blocked = some b →
      get_yt_video_status ytid resp =
        Except.ok (if b.length = 249 then "blocked everywhere" else "ok")) := by
  unfold get_yt_video_status
  rw [hitems]
  constructor
  · intro a ha
    simp [hpriv, hup, hcd, hrr, ha]
    split_ifs <;> rfl
  · intro ha b hb
    simp [hpriv, hup, hcd, hrr, ha, hb]
    split_ifs <;> rfl

/-- A processed public video whose block-list has 248 entries. -/
def respBlocked248 : YtResponse :=
  ⟨[⟨⟨"public", "processed"⟩,
     some ⟨some ⟨none, some (List.replicate 248 "US")⟩⟩⟩]⟩

/-- A processed public video with an empty allow-list. -/
def respAllowedEmpty : YtResponse :=
  ⟨[⟨⟨"public", "processed"⟩, some ⟨some ⟨some [], none⟩⟩⟩]⟩

/-- Witness for C2: a 248-entry block-list yields `ok`; an empty allow-list
yields `blocked everywhere`. -/
theorem yt_region_decision_witness :
    get_yt_video_status "SVEfr7Tfm-g" respBlocked248 = Except.ok "ok" ∧
    get_yt_video_status "sVm7Cqm9Z5c" respAllowedEmpty =
      Except.ok "blocked everywhere" := by
  constructor
  · have h :=
      (yt_region_decision "SVEfr7Tfm-g" respBlocked248
        ⟨⟨"public", "processed"⟩,
         some ⟨some ⟨none, some (List.replicate 248 "US")⟩⟩⟩ []
        ⟨some ⟨none, some (List.replicate 248 "US")⟩⟩
        ⟨none, some (List.replicate 248 "US")⟩
        rfl (by decide) rfl rfl rfl).2 rfl (List.replicate 248 "US") rfl
    rw [List.length_replicate, if_neg (by omega)] at h
    exact h
  · have h :=
      (yt_region_decision "sVm7Cqm9Z5c" respAllowedEmpty
        ⟨⟨"public", "processed"⟩, some ⟨some ⟨some [], none⟩⟩⟩ []
        ⟨some ⟨some [], none⟩⟩ ⟨some [], none⟩
        rfl (by decide) rfl rfl rfl).1 [] rfl
    simpa using h

/-- C3: for a processed, non-private video whose region-restriction object is
present but holds neither an allow-list nor a block-list, the classifier does
not return any status: it fails with an error carrying the raw API response. -/
theorem yt_contract_violation (ytid : String) (resp : YtResponse)
    (info : YtVideoInfo) (rest : List YtVideoInfo)
    (cd : YtContentDetails) (region : YtRegionRestriction)
    (hitems : resp.items = info :: rest)
    (hpriv : info.status.privacyStatus ≠ "private")
    (hup : info.status.uploadStatus = "processed")
    (hcd : info.contentDetails = some cd)
    (hrr : cd.regionRestriction = some region)
    (hallow : region.allowed = none)
    (hblock : region.blocked = none) :
    get_yt_video_status ytid resp =
      Except.error ("Unexpected Youtube API response for " ++ ytid, resp) := by
  unfold get_yt_video_status
  rw [hitems]
  simp [hpriv, hup, hcd, hrr, hallow, hblock]

/-- A processed public video whose region-restriction object is empty. -/
def respEmptyRestriction : YtResponse :=
  ⟨[⟨⟨"public", "processed"⟩, some ⟨some ⟨none, none⟩⟩⟩]⟩

/-- Witness for C3: the empty restriction object produces the error carrying
the raw response. -/
theorem yt_contract_violation_witness :
    get_yt_video_status "OkuxYgBNv9c" respEmptyRestriction =
      Except.error
        ("Unexpected Youtube API response for OkuxYgBNv9c",
         respEmptyRestriction) :=
  yt_contract_violation "OkuxYgBNv9c" respEmptyRestriction
    ⟨⟨"public", "processed"⟩, some ⟨some ⟨none, none⟩⟩⟩ []
    ⟨some ⟨none, none⟩⟩ ⟨none, none⟩
    rfl (by decide) rfl rfl rfl rfl rfl

/- ## The comment-page counter (find_dead.number_of_pages) -/

/-- `needle.startsW hay`: does `hay` start with `needle`? -/
def startsW : List Char → List Char → Bool
  | [], _ => true
  | _ :: _, [] => false
  | a :: as, b :: bs => a = b && startsW as bs

/-- `containsSub needle hay`: does `needle` occur contiguously inside `hay`?
Models Python's `needle in hay` on strings. -/
def containsSub (needle : List Char) : List Char → Bool
  | [] => startsW needle []
  | c :: cs => startsW needle (c :: cs) || containsSub needle cs

/-- The observable parts of the HTTP response that `number_of_pages` inspects:
the status code, the final URL after redirects (`r.url`), the integer text of
each paginator link (the `.pages li a` elements, each read with
`int(..get_text())`), and the number of `.comment` elements. -/
structure FetchedPage where
  status_code : Nat
  url : String
  paginator : List Nat
  comments : Nat

/-- `find_dead.number_of_pages`, transliterated: non-200 status → 0;
`'/login/' in r.url` → 0; a non-empty paginator → its last link's number;
no paginator and no comments → 0; otherwise 1. -/
def number_of_pages (p : FetchedPage) : Nat :=
  if p.status_code ≠ 200 then 0
  else if containsSub "/login/".data p.url.data then 0
  else
    match p.paginator.getLast? with
    | some n => n
    | none => if p.comments = 0 then 0 else 1

/-- C7: `number_of_pages` returns 0 on a failed fetch or a login redirect;
on a successful non-redirected fetch it returns the number shown by the
paginator's last link when a paginator is present, and 1 when there is no
paginator but at least one comment. -/
theorem number_of_pages_spec :
    (∀ p : FetchedPage, p.status_code ≠ 200 → number_of_pages p = 0) ∧
    (∀ p : FetchedPage, containsSub "/login/".data p.url.data = true →
      number_of_pages p = 0) ∧
    (∀ (p : FetchedPage) (l : List Nat) (n : Nat), p.status_code = 200 →
      containsSub "/login/".data p.url.data = false →
      p.paginator = l ++ [n] → number_of_pages p = n) ∧
    (∀ p : FetchedPage, p.status_code = 200 →
      containsSub "/login/".data p.url.data = false →
      p.paginator = [] → 0 < p.comments → number_of_pages p = 1) := by
  refine ⟨fun p h => ?_, fun p h => ?_, fun p l n h1 h2 h3 => ?_,
    fun p h1 h2 h3 h4 => ?_⟩
  · simp [number_of_pages, h]
  · unfold number_of_pages
    rw [h]
    by_cases hs : p.status_code ≠ 200 <;> simp [hs]
  · simp [number_of_pages, h1, h2, h3]
  · simp [number_of_pages, h1, h2, h3, Nat.pos_iff_ne_zero.mp h4]

/-- Witness for C7: all four branches at concrete pages. -/
theorem number_of_pages_spec_witness :
    number_of_pages ⟨404, "https://www.icheckmovies.com/profiles/comments/", [], 0⟩ = 0 ∧
    number_of_pages ⟨200, "https://www.icheckmovies.com/login/", [], 5⟩ = 0 ∧
    number_of_pages ⟨200, "https://www.icheckmovies.com/profiles/comments/", [1, 2, 7], 20⟩ = 7 ∧
    number_of_pages ⟨200, "https://www.icheckmovies.com/profiles/comments/", [], 3⟩ = 1 :=
  ⟨number_of_pages_spec.1 _ (by decide),
   number_of_pages_spec.2.1 _ (by decide),
   number_of_pages_spec.2.2.1 _ [1, 2] 7 rfl (by decide) rfl,
   number_of_pages_spec.2.2.2 _ rfl (by decide) rfl (by decide)⟩

/-- C9: an existing user (successful fetch, no login redirect) with no
paginator and zero comments yields 0 pages, not 1. -/
theorem number_of_pages_empty_profile (p : FetchedPage)
    (h200 : p.status_code = 200)
    (hlog : containsSub "/login/".data p.url.data = false)
    (hpag : p.paginator = []) (hcom : p.comments = 0) :
    number_of_pages p = 0 := by
  simp [number_of_pages, h200, hlog, hpag, hcom]

/-- Witness for C9: a commentless existing user has 0 pages. -/
theorem number_of_pages_empty_profile_witness :
    number_of_pages ⟨200, "https://www.icheckmovies.com/profiles/comments/", [], 0⟩ = 0 :=
  number_of_pages_empty_profile _ rfl (by decide) rfl rfl

/- ## The link extractor (video_host_utils.extract_video_ids)

`extract_video_ids(regex, s)` returns `[m.group(1) for m in regex.finditer(s)]`.
It is modelled here for the registry's vimeo pattern `vimeo\.com/(\d+)`:
`finditer` scans left to right, yields non-overlapping matches, and resumes
after the end of each match; the single group captures the maximal digit run. -/

/-- The literal part of the vimeo pattern. -/
def vimeoLit : List Char := ['v', 'i', 'm', 'e', 'o', '.', 'c', 'o', 'm', '/']

/-- One attempt of the vimeo pattern at the head of `s`: the literal
`vimeo.com/` followed by a non-empty maximal digit run (the capture group);
returns the capture and the remainder after the match. -/
def matchVimeoAt (s : List Char) : Option (List Char × List Char) :=
  if startsW vimeoLit s then
    let rest := s.drop 10
    match rest.takeWhile Char.isDigit with
    | [] => none
    | ds => some (ds, rest.dropWhile Char.isDigit)
  else none

/-- The `finditer` scan: try a match at the current position; on success emit
the capture and resume after the match, otherwise advance one character.
`fuel` bounds the recursion; `s.length` steps always suffice because every
step consumes at least one character. -/
def vimeoScan : Nat → List Char → List (List Char)
  | 0, _ => []
  | f + 1, s =>
    match matchVimeoAt s with
    | some (ds, rest) => ds :: vimeoScan f rest
    | none =>
      match s with
      | [] => []
      | _ :: cs => vimeoScan f cs

/-- `extract_video_ids` specialised to the vimeo host pattern. -/
def extract_video_ids_vimeo (s : List Char) : List (List Char) :=
  vimeoScan s.length s

/-- C6 counterexample: a text containing the same vimeo link twice yields the
same video id twice — the extractor's output of a single call is not
deduplicated, contradicting the claim that each pair occurs at most once. -/
theorem extract_vimeo_not_deduplicated :
    extract_video_ids_vimeo ("vimeo.com/123 vimeo.com/123").data =
      [['1', '2', '3'], ['1', '2', '3']] ∧
    ¬ List.Nodup (extract_video_ids_vimeo ("vimeo.com/123 vimeo.com/123").data) := by
  decide

theorem takeWhile_append_all (p : Char → Bool) (d r : List Char)
    (h : ∀ c ∈ d, p c = true) :
    (d ++ r).takeWhile p = d ++ r.takeWhile p := by
  induction d with
  | nil => simp
  | cons c cs ih =>
    have hc : p c = true := h c (List.mem_cons_self c cs)
    have ih2 := ih fun x hx => h x (List.mem_cons_of_mem c hx)
    simp [List.takeWhile_cons, hc, ih2]

theorem dropWhile_append_all (p : Char → Bool) (d r : List Char)
    (h : ∀ c ∈ d, p c = true) :
    (d ++ r).dropWhile p = r.dropWhile p := by
  induction d with
  | nil => simp
  | cons c cs ih =>
    have hc : p c = true := h c (List.mem_cons_self c cs)
    have ih2 := ih fun x hx => h x (List.mem_cons_of_mem c hx)
    simp [List.dropWhile_cons, hc, ih2]

theorem dropWhile_eq_self_of_takeWhile_nil (p : Char → Bool) (r : List Char)
    (h : r.takeWhile p = []) : r.dropWhile p = r := by
  cases r with
  | nil => rfl
  | cons c cs =>
    by_cases hc : p c = true
    · simp [List.takeWhile_cons, hc] at h
    · simp [List.dropWhile_cons, hc]

theorem startsW_self_append (a b : List Char) : startsW a (a ++ b) = true := by
  induction a with
  | nil => rfl
  | cons c cs ih => simp [startsW, List.cons_append, ih]

/-- A successful scan step: at `vimeo.com/` followed by a digit run `d` and a
remainder `r` that does not start with a digit, the scan emits `d` and resumes
on `r`. -/
theorem vimeoScan_hit (f : Nat) (d r : List Char) (hne : d ≠ [])
    (hdig : ∀ c ∈ d, c.isDigit = true)
    (hr : r.takeWhile Char.isDigit = []) :
    vimeoScan (f + 1) (vimeoLit ++ (d ++ r)) = d :: vimeoScan f r := by
  have ht : (d ++ r).takeWhile Char.isDigit = d := by
    rw [takeWhile_append_all _ _ _ hdig, hr, List.append_nil]
  have hd : (d ++ r).dropWhile Char.isDigit = r := by
    rw [dropWhile_append_all _ _ _ hdig,
      dropWhile_eq_self_of_takeWhile_nil _ _ hr]
  have hdrop : (vimeoLit ++ (d ++ r)).drop 10 = d ++ r := by
    have : 10 = vimeoLit.length := rfl
    rw [this, List.drop_left]
  have hmatch : matchVimeoAt (vimeoLit ++ (d ++ r)) = some (d, r) := by
    unfold matchVimeoAt
    rw [startsW_self_append]
    simp only [if_true, hdrop, ht, hd]
  simp [vimeoScan, hmatch]

/-- A failing scan step just advances one character. -/
theorem vimeoScan_skip (f : Nat) (c : Char) (t : List Char)
    (h : matchVimeoAt (c :: t) = none) :
    vimeoScan (f + 1) (c :: t) = vimeoScan f t := by
  simp [vimeoScan, h]

theorem vimeoScan_nil (f : Nat) : vimeoScan f [] = [] := by
  cases f <;> rfl

/-- C6 amended: the extractor is not deduplicating — it returns one capture
per regex match in text order, so a text consisting of the same vimeo link
twice yields the same id twice. -/
theorem extract_vimeo_repeated_link (d : List Char) (hne : d ≠ [])
    (hdig : ∀ c ∈ d, c.isDigit = true) :
    extract_video_ids_vimeo (vimeoLit ++ d ++ (' ' :: (vimeoLit ++ d))) =
      [d, d] := by
  have hlen : (vimeoLit ++ d ++ (' ' :: (vimeoLit ++ d))).length =
      2 * d.length + 21 := by
    simp [vimeoLit]
    omega
  unfold extract_video_ids_vimeo
  rw [hlen, List.append_assoc]
  rw [show 2 * d.length + 21 = (2 * d.length + 20) + 1 from rfl]
  rw [vimeoScan_hit (2 * d.length + 20) d (' ' :: (vimeoLit ++ d)) hne hdig rfl]
  rw [show 2 * d.length + 20 = (2 * d.length + 19) + 1 from rfl]
  rw [vimeoScan_skip (2 * d.length + 19) ' ' (vimeoLit ++ d) rfl]
  rw [show 2 * d.length + 19 = (2 * d.length + 18) + 1 from rfl]
  rw [show vimeoLit ++ d = vimeoLit ++ (d ++ ([] : List Char)) from by simp]
  rw [vimeoScan_hit (2 * d.length + 18) d [] hne hdig rfl]
  rw [vimeoScan_nil]

/-- Witness for the amended C6: the id 123 repeated. -/
theorem extract_vimeo_repeated_link_witness :
    extract_video_ids_vimeo
        (vimeoLit ++ ['1', '2', '3'] ++ (' ' :: (vimeoLit ++ ['1', '2', '3']))) =
      [['1', '2', '3'], ['1', '2', '3']] :=
  extract_vimeo_repeated_link ['1', '2', '3'] (by decide) (by decide)

/- ## The report writer and the batch audit
(find_dead.write_dead_in_profile / write_dead_by_users)

The network side (fetching pages, extracting links, classifying them) is
abstracted as `audit : String → List DeadLink`, the list of dead links found
for a user (the source's `list(dead_in_comments(comments))`, whose `not found`
status has already been replaced by `None`).  The two files written by the
program are the report (`result.md`, append-only block writes) and the
checked-users ledger (`checked_users.txt`, one username per line). -/

/-- One dead link as yielded by `dead_in_comments`: the movie path, host key,
video id and the status suffix (`none` models Python's `None` after the
`not found` status is dropped). -/
structure DeadLink where
  movie : String
  host : String
  vid : String
  status : Option String
deriving DecidableEq

/-- Decimal digits of `n` (fuel-driven so that it evaluates by `rfl`). -/
def natDigits : Nat → Nat → List Char
  | 0, _ => []
  | f + 1, n =>
    if n < 10 then [Char.ofNat (48 + n)]
    else natDigits f (n / 10) ++ [Char.ofNat (48 + n % 10)]

/-- Python's `str` on a natural number. -/
def natRepr (n : Nat) : List Char := natDigits (n + 1) n

/-- UTF-8 bytes of one code point. -/
def utf8Bytes (n : Nat) : List Nat :=
  if n < 128 then [n]
  else if n < 2048 then [192 + n / 64, 128 + n % 64]
  else if n < 65536 then [224 + n / 4096, 128 + (n / 64) % 64, 128 + n % 64]
  else [240 + n / 262144, 128 + (n / 4096) % 64, 128 + (n / 64) % 64,
        128 + n % 64]

def hexDigitChar (n : Nat) : Char :=
  if n < 10 then Char.ofNat (48 + n) else Char.ofNat (55 + n)

/-- `urllib.parse.quote_plus` on one character: ASCII alphanumerics and
`_ . - ~` pass through, a space becomes `+`, everything else is
percent-encoded per UTF-8 byte with uppercase hex. -/
def quotePlusChar (c : Char) : List Char :=
  if c.isAlphanum || c = '_' || c = '.' || c = '-' || c = '~' then [c]
  else if c = ' ' then ['+']
  else (utf8Bytes c.toNat).foldr
    (fun b acc => '%' :: hexDigitChar (b / 16) :: hexDigitChar (b % 16) :: acc)
    []

/-- `urllib.parse.quote_plus`. -/
def quotePlus (s : String) : List Char :=
  s.data.foldr (fun c acc => quotePlusChar c ++ acc) []

def URL_USER_COMMENTS : String := "https://www.icheckmovies.com/profiles/comments/"

/-- `VIDEO_HOSTS[host].url.format(vid)`: the canonical watch URL of a video.
All four registry templates end in the placeholder, so formatting appends the
id.  Hosts outside the registry never reach the writer (`parse_comment`
iterates over the registry keys only). -/
def hostWatchUrl (host vid : String) : List Char :=
  match host with
  | "youtube" => "https://www.youtube.com/watch?v=".data ++ vid.data
  | "vimeo" => "https://vimeo.com/".data ++ vid.data
  | "dailymotion" => "https://www.dailymotion.com/video/".data ++ vid.data
  | "googlevideo" => "http://video.google.com/videoplay?docid=".data ++ vid.data
  | _ => []

/-- One bullet line of a report block, exactly as `write_dead_in_profile`
formats it: `- [host:vid](watch_url) **(status)** on [movie](comment_url)`,
with the bold status segment omitted when the status is `None`. -/
def entryLineText (d : DeadLink) : List Char :=
  "- [".data ++ d.host.data ++ [':'] ++ d.vid.data ++ "](".data ++
    hostWatchUrl d.host d.vid ++ ") ".data ++
    (match d.status with
     | some st => "**(".data ++ st.data ++ ")** ".data
     | none => []) ++
    "on [".data ++ d.movie.data ++ "](https://www.icheckmovies.com".data ++
    d.movie.data ++ "comments/)".data ++ ['\n']

/-- The full block text `write_dead_in_profile` appends for one user:
the `## [user](COMMENTS_URL?user=...) (count)` header line followed by one
bullet line per dead link. -/
def write_dead_in_profile_text (user : String) (dead : List DeadLink) :
    List Char :=
  "## [".data ++ user.data ++ "](".data ++ URL_USER_COMMENTS.data ++
    "?user=".data ++ quotePlus user ++ ") (".data ++ natRepr dead.length ++
    ")".data ++ ['\n'] ++
    (dead.map entryLineText).foldr (fun a b => a ++ b) []

/-- The two persisted files: the report as the list of appended blocks
(the file content is their concatenation) and the ledger as its list of
lines (usernames). -/
structure FileState where
  report : List (List Char)
  ledger : List String
deriving DecidableEq

/-- `find_dead.write_dead_in_profile` with the network audit abstracted:
no dead links → nothing is written (no block for a clean user); otherwise one
block is appended to the report. -/
def write_dead_in_profile (audit : String → List DeadLink) (user : String)
    (st : FileState) : FileState :=
  let dead_links := audit user
  if dead_links.isEmpty then st
  else { st with report := st.report ++ [write_dead_in_profile_text user dead_links] }

/-- One iteration of the `for user in users` loop of `write_dead_by_users`:
audit and write the user's block, then (unless the ledger check is disabled)
immediately append the username to the ledger. -/
def batch_step (audit : String → List DeadLink) (ignore_blacklist : Bool)
    (st : FileState) (user : String) : FileState :=
  let s2 := write_dead_in_profile audit user st
  if ignore_blacklist then s2 else { s2 with ledger := s2.ledger ++ [user] }

/-- `find_dead.write_dead_by_users`: unless `ignore_blacklist` is set, the
user list is first filtered against the ledger as read before the loop
(`filter_by_blacklist`), then each remaining user is processed in order. -/
def write_dead_by_users (audit : String → List DeadLink)
    (users : List String) (ignore_blacklist : Bool) (st : FileState) :
    FileState :=
  let users2 :=
    if ignore_blacklist then users
    else users.filter (fun u => !st.ledger.contains u)
  users2.foldl (batch_step audit ignore_blacklist) st

/-- C8: a batch over `[A, B]` with the ledger check enabled, where A's audit
finds nothing and B's finds at least one dead link, appends exactly B's block
to the report while appending both usernames to the ledger; the intermediate
state after A's iteration shows A's ledger line written immediately after A's
(empty) report write, before B is processed. -/
theorem batch_audit_ledger (audit : String → List DeadLink) (A B : String)
    (st : FileState) (hA : audit A = []) (hB : audit B ≠ [])
    (hAled : st.ledger.contains A = false)
    (hBled : st.ledger.contains B = false) :
    write_dead_by_users audit [A, B] false st =
      { report := st.report ++ [write_dead_in_profile_text B (audit B)],
        ledger := st.ledger ++ [A, B] } ∧
    batch_step audit false st A =
      { report := st.report, ledger := st.ledger ++ [A] } := by
  have hBe : (audit B).isEmpty = false := by
    cases hb : audit B with
    | nil => exact absurd hb hB
    | cons x xs => rfl
  have hstepA : batch_step audit false st A =
      { report := st.report, ledger := st.ledger ++ [A] } := by
    simp [batch_step, write_dead_in_profile, hA]
  refine ⟨?_, hstepA⟩
  unfold write_dead_by_users
  simp only [Bool.false_eq_true, if_false, List.filter_cons, List.filter_nil,
    hAled, hBled, Bool.not_false, if_true, List.foldl_cons, List.foldl_nil]
  rw [hstepA]
  simp [batch_step, write_dead_in_profile, hBe]

/-- A concrete audit outcome: `alice` is clean, `bob` has one private link. -/
def demoAudit (u : String) : List DeadLink :=
  if u = "bob" then
    [⟨"/movies/example/", "youtube", "abcdefghijk", some "private"⟩]
  else []

/-- Witness for C8 at a concrete batch. -/
theorem batch_audit_ledger_witness :
    write_dead_by_users demoAudit ["alice", "bob"] false ⟨[], []⟩ =
      { report := [write_dead_in_profile_text "bob" (demoAudit "bob")],
        ledger := ["alice", "bob"] } ∧
    batch_step demoAudit false ⟨[], []⟩ "alice" =
      { report := [], ledger := ["alice"] } :=
  batch_audit_ledger demoAudit "alice" "bob" ⟨[], []⟩ rfl
    (by decide) rfl rfl

theorem foldl_batch_step_true (audit : String → List DeadLink)
    (users : List String) (st : FileState) :
    users.foldl (batch_step audit true) st =
      { report := st.report ++ users.filterMap (fun u =>
          if (audit u).isEmpty then none
          else some (write_dead_in_profile_text u (audit u))),
        ledger := st.ledger } := by
  induction users generalizing st with
  | nil => simp
  | cons u us ih =>
    simp only [List.foldl_cons, List.filterMap_cons]
    rw [ih]
    by_cases h : (audit u).isEmpty
    · simp [batch_step, write_dead_in_profile, h]
    · simp [batch_step, write_dead_in_profile, h]

/-- C10: with the ledger check disabled (`ignore_blacklist`), the batch audit
leaves the ledger untouched — no user is filtered against it and no username
is appended to it — while the report still receives one block per user with
dead links, in order. -/
theorem batch_audit_ignores_ledger (audit : String → List DeadLink)
    (users : List String) (st : FileState) :
    write_dead_by_users audit users true st =
      { report := st.report ++ users.filterMap (fun u =>
          if (audit u).isEmpty then none
          else some (write_dead_in_profile_text u (audit u))),
        ledger := st.ledger } := by
  unfold write_dead_by_users
  simp only [if_true]
  exact foldl_batch_step_true audit users st

/- ## The report resorter (find_dead.sort_output_file)

`sort_output_file` reads the report, splits it into `##`-headed blocks,
extracts each block's declared count with the pattern ` \((\d+)\)\n`, sorts
blocks by `(-count, block_text)` (Python's stable sort) and rewrites the file.
A block whose count pattern is absent makes `re.search` return `None` and the
subsequent `.group(1)` raise; that crash is modelled as `none`. -/

/-- Python `str.split('##')`: non-overlapping leftmost splitting, empty
pieces kept. -/
def splitHashes : List Char → List (List Char)
  | [] => [[]]
  | '#' :: '#' :: rest => [] :: splitHashes rest
  | c :: rest =>
    match splitHashes rest with
    | p :: ps => (c :: p) :: ps
    | [] => [[c]]

/-- `['##' + s for s in content.split('##') if s]`. -/
def blocksOf (content : List Char) : List (List Char) :=
  ((splitHashes content).filter (fun b => !b.isEmpty)).map
    (fun b => '#' :: '#' :: b)

/-- Digits to their decimal value (Python `int` on a digit string). -/
def digitsToNat (ds : List Char) : Nat :=
  ds.foldl (fun n c => 10 * n + (c.toNat - 48)) 0

/-- The regex ` \((\d+)\)\n` tried at the head of the text: a space, `(`, a
non-empty maximal digit run, `)`, newline.  (The greedy `\d+` cannot trade
characters with the following `)`, so maximal-run-then-check is exact.) -/
def matchCountAt : List Char → Option Nat
  | ' ' :: '(' :: rest =>
    match rest.takeWhile Char.isDigit with
    | [] => none
    | ds =>
      match rest.dropWhile Char.isDigit with
      | ')' :: '\n' :: _ => some (digitsToNat ds)
      | _ => none
  | _ => none

/-- `re.search(r' \((\d+)\)\n', b)`: the leftmost match's group as a number. -/
def searchCount : List Char → Option Nat
  | [] => none
  | c :: cs =>
    match matchCountAt (c :: cs) with
    | some n => some n
    | none => searchCount cs

/-- `[(b, int(re.search(..).group(1))) for b in blocks]`; `none` when some
block's header count is missing (the `.group` call would raise). -/
def blocksWithLens : List (List Char) → Option (List (List Char × Nat))
  | [] => some []
  | b :: bs =>
    match searchCount b, blocksWithLens bs with
    | some n, some rest => some ((b, n) :: rest)
    | _, _ => none

/-- Lexicographic comparison of texts by code point (Python `str` `<=`). -/
def charsLe : List Char → List Char → Bool
  | [], _ => true
  | _ :: _, [] => false
  | a :: as, b :: bs =>
    if a < b then true else if b < a then false else charsLe as bs

/-- The sort key `(-count, text)` of `blocks_with_lens.sort`, as a
non-strict order: `x` may precede `y` iff its key is not larger. -/
def keyLe (x y : List Char × Nat) : Bool :=
  if y.2 < x.2 then true else if x.2 < y.2 then false else charsLe x.1 y.1

def insertBlock (x : List Char × Nat) :
    List (List Char × Nat) → List (List Char × Nat)
  | [] => [x]
  | y :: ys => if keyLe x y then x :: y :: ys else y :: insertBlock x ys

/-- Stable ascending sort by `keyLe` (Python's `list.sort(key=...)`). -/
def sortBlocks (l : List (List Char × Nat)) : List (List Char × Nat) :=
  l.foldr insertBlock []

/-- `find_dead.sort_output_file` on the report content; `none` models the
crash when a block's declared count cannot be parsed, and the result string
is the concatenation the source writes back with `writelines`. -/
def sort_output_file (content : List Char) : Option (List Char) :=
  match blocksWithLens (blocksOf content) with
  | none => none
  | some bl =>
    some (((sortBlocks bl).map Prod.fst).foldr (fun a b => a ++ b) [])

/-- Python `str.strip()`. -/
def pyStrip (s : List Char) : List Char :=
  ((s.dropWhile Char.isWhitespace).reverse.dropWhile Char.isWhitespace).reverse

/-- Python `str.split('\n')` (single-character separator, empties kept). -/
def splitOnChar (sep : Char) : List Char → List (List Char)
  | [] => [[]]
  | c :: cs =>
    if c = sep then [] :: splitOnChar sep cs
    else
      match splitOnChar sep cs with
      | p :: ps => (c :: p) :: ps
      | [] => [[c]]

/-- The number of entry lines actually present in a block: the lines after
the header line of the stripped block (the quantity `convert_output_file_to_csv`
checks against the declared count). -/
def entryLineCount (b : List Char) : Nat :=
  ((splitOnChar '\n' (pyStrip b)).drop 1).length

/-- A report whose single block declares 3 dead links in its header but holds
a single entry line. -/
def c4MismatchedReport : List Char :=
  ("## [userA](https://www.icheckmovies.com/profiles/comments/?user=userA) (3)\n- [youtube:abcdefghijk](https://www.youtube.com/watch?v=abcdefghijk) on [/movies/example/](https://www.icheckmovies.com/movies/example/comments/)\n").data

/-- C4 counterexample: a report whose single block declares 3 dead links but
contains 1 entry line.  `sort_output_file` does not fail on this mismatch:
it succeeds and keeps the malformed block unchanged, so the mismatch is not
a fatal parse error of the resort operation. -/
theorem sort_output_file_keeps_mismatched_block :
    searchCount c4MismatchedReport = some 3 ∧
    entryLineCount c4MismatchedReport = 1 ∧
    blocksOf c4MismatchedReport = [c4MismatchedReport] ∧
    sort_output_file c4MismatchedReport = some c4MismatchedReport :=
  ⟨rfl, rfl, rfl, rfl⟩

theorem blocksWithLens_isSome (bs : List (List Char))
    (h : ∀ b ∈ bs, (searchCount b).isSome) :
    (blocksWithLens bs).isSome := by
  induction bs with
  | nil => rfl
  | cons b rest ih =>
    have hb := h b (List.mem_cons_self _ _)
    have hrest := ih fun x hx => h x (List.mem_cons_of_mem _ hx)
    unfold blocksWithLens
    cases hsb : searchCount b with
    | none => rw [hsb] at hb; simp at hb
    | some n =>
      cases hbl : blocksWithLens rest with
      | none => rw [hbl] at hrest; simp at hrest
      | some l => rfl

/-- C4 amended: the resort operation only needs each block's declared count
to be parsable from its header; it performs no comparison of that count with
the number of entry lines present, so it succeeds on every report whose
headers parse — including blocks whose declared count disagrees with their
actual entries (the count-versus-entries validation lives in the CSV export
instead). -/
theorem sort_output_file_no_count_validation (content : List Char)
    (h : ∀ b ∈ blocksOf content, (searchCount b).isSome) :
    (sort_output_file content).isSome := by
  unfold sort_output_file
  cases hbl : blocksWithLens (blocksOf content) with
  | none =>
    have hs := blocksWithLens_isSome _ h
    rw [hbl] at hs
    simp at hs
  | some l => rfl

/-- Witness for the amended C4, at the mismatched report itself. -/
theorem sort_output_file_no_count_validation_witness :
    (sort_output_file c4MismatchedReport).isSome :=
  sort_output_file_no_count_validation c4MismatchedReport (by decide)

/- ## The CSV exporter (find_dead.convert_output_file_to_csv)

The exporter re-parses each report block with two regular expressions:

    re_header = ^## \[(?P<author>.+?)]\((?P<author_url>.+?)\) \((?P<count>\d+)\)
    re_row    = ^-\s\[(?P<host>\w+):.+?]\((?P<video_url>.+?)\)
                (?:\s\*\*\((?P<blocked>blocked\severywhere)\)\*\*)?\s
                on.+\((?P<comment_url>.+)\)$       (VERBOSE)

Both are modelled with explicit backtracking: a lazy `.+?` tries split points
in increasing position order, a greedy `.+` in decreasing order, the optional
group tries the with-group alternative first, and `\w+`/`\d+` take the
maximal run (the following literal is outside their character class, so no
shorter run can succeed).  `match(...)` anchors at the start only; `$` anchors
the end.  A `None` match makes the source call `.groupdict()` on `None`
(`AttributeError`); the failed `assert` on the declared count is the other
failure mode. -/

def isWordChar (c : Char) : Bool := c.isAlphanum || c = '_'

/-- All ways to split `s` as `pre ++ [stop] ++ post`, leftmost first. -/
def splitCands (stop : Char) : List Char → List (List Char × List Char)
  | [] => []
  | c :: cs =>
    (if c = stop then [(([] : List Char), cs)] else []) ++
      (splitCands stop cs).map (fun p => (c :: p.1, p.2))

/-- One row as captured by `re_row`: the named groups `host`, `video_url`,
`blocked` (absent when the optional group did not participate) and
`comment_url`. -/
structure RowCore where
  host : List Char
  video_url : List Char
  blocked : Option (List Char)
  comment_url : List Char
deriving DecidableEq

/-- The group literal `blocked\severywhere` (capture and remainder). -/
def matchBlockedAfterParen : List Char → Option (List Char × List Char)
  | 'b' :: 'l' :: 'o' :: 'c' :: 'k' :: 'e' :: 'd' :: w :: rest =>
    if w.isWhitespace then
      match rest with
      | 'e' :: 'v' :: 'e' :: 'r' :: 'y' :: 'w' :: 'h' :: 'e' :: 'r' :: 'e' :: r2 =>
        some ("blocked".data ++ [w] ++ "everywhere".data, r2)
      | _ => none
    else none
  | _ => none

/-- The optional group `(?:\s\*\*\((?P<blocked>blocked\severywhere)\)\*\*)?`:
the greedy `?` offers the participating alternative first, then skipping. -/
def optBlockedCands (r : List Char) : List (Option (List Char) × List Char) :=
  (match r with
   | w :: '*' :: '*' :: '(' :: r2 =>
     if w.isWhitespace then
       match matchBlockedAfterParen r2 with
       | some (cap, r3) =>
         match r3 with
         | ')' :: '*' :: '*' :: r4 => [(some cap, r4)]
         | _ => []
       | none => []
     else []
   | _ => []) ++ [(none, r)]

/-- The row tail `.+\((?P<comment_url>.+)\)$`: the greedy `.+` picks the
rightmost viable `(`; `$` forces the closing `)` to be the final character,
so the capture is everything between them (non-empty on both sides). -/
def matchTail (r : List Char) : Option (List Char) :=
  (((splitCands '(' r).filter (fun p => !p.1.isEmpty)).reverse).findSome?
    (fun p =>
      match p.2.getLast? with
      | some ')' =>
        match p.2.dropLast with
        | [] => none
        | c => some c
      | _ => none)

/-- `re_row.match(line)` (anchored at the start; `$` at the end). -/
def matchRow (l : List Char) : Option RowCore :=
  match l with
  | '-' :: w :: '[' :: r0 =>
    if w.isWhitespace then
      match r0.takeWhile isWordChar, r0.dropWhile isWordChar with
      | [], _ => none
      | host, ':' :: r1 =>
        ((splitCands ']' r1).filter (fun p => !p.1.isEmpty)).findSome?
          (fun q =>
            match q.2 with
            | '(' :: r3 =>
              ((splitCands ')' r3).filter (fun p => !p.1.isEmpty)).findSome?
                (fun v =>
                  (optBlockedCands v.2).findSome?
                    (fun ob =>
                      match ob.2 with
                      | w2 :: 'o' :: 'n' :: r6 =>
                        if w2.isWhitespace then
                          (matchTail r6).map
                            (fun curl => ⟨host, v.1, ob.1, curl⟩)
                        else none
                      | _ => none))
            | _ => none)
      | _, _ => none
    else none
  | _ => none

/-- `re_header.match(first_line)`: author, author_url and the declared count. -/
def matchHeader (l : List Char) : Option (List Char × List Char × Nat) :=
  match l with
  | '#' :: '#' :: ' ' :: '[' :: r0 =>
    ((splitCands ']' r0).filter (fun p => !p.1.isEmpty)).findSome?
      (fun a =>
        match a.2 with
        | '(' :: r1 =>
          ((splitCands ')' r1).filter (fun p => !p.1.isEmpty)).findSome?
            (fun u =>
              match u.2 with
              | ' ' :: '(' :: r2 =>
                match r2.takeWhile Char.isDigit with
                | [] => none
                | ds =>
                  match r2.dropWhile Char.isDigit with
                  | ')' :: _ => some (a.1, u.1, digitsToNat ds)
                  | _ => none
              | _ => none)
        | _ => none)
  | _ => none

/-- The failure modes of the export: a header or row line the regex does not
match (`.groupdict()` on `None` raises `AttributeError`), or the `assert`
comparing the parsed row count with the declared count. -/
inductive ConvError
  | headerMatchFailed
  | rowMatchFailed
  | countMismatch
deriving DecidableEq

/-- One exported CSV row (the `author_url` group is dropped by the writer's
`extrasaction='ignore'`; `blocked` is empty for a non-participating group). -/
structure CsvRow where
  author : List Char
  comment_url : List Char
  host : List Char
  video_url : List Char
  blocked : Option (List Char)
deriving DecidableEq

/-- `[re_row.match(line).groupdict() for line in lines]`: fails at the first
non-matching line. -/
def matchRows : List (List Char) → Option (List RowCore)
  | [] => some []
  | l :: ls =>
    match matchRow l, matchRows ls with
    | some r, some rs => some (r :: rs)
    | _, _ => none

/-- The per-block loop of `convert_output_file_to_csv`: strip the block,
split into lines, parse the header and every row, check the declared count,
and emit the flat rows. -/
def convertBlocks : List (List Char) → Except ConvError (List CsvRow)
  | [] => Except.ok []
  | b :: bs =>
    match splitOnChar '\n' (pyStrip b) with
    | [] => Except.error ConvError.headerMatchFailed
    | first :: rest =>
      match matchHeader first with
      | none => Except.error ConvError.headerMatchFailed
      | some (author, _, count) =>
        match matchRows rest with
        | none => Except.error ConvError.rowMatchFailed
        | some rs =>
          if rs.length = count then
            match convertBlocks bs with
            | Except.error e => Except.error e
            | Except.ok more =>
              Except.ok (rs.map (fun r =>
                ⟨author, r.comment_url, r.host, r.video_url, r.blocked⟩) ++ more)
          else Except.error ConvError.countMismatch

/-- `find_dead.convert_output_file_to_csv` on the report content, returning
the flat rows it would write to the CSV, or the failure that aborts it. -/
def convert_output_file_to_csv (content : List Char) :
    Except ConvError (List CsvRow) :=
  convertBlocks (blocksOf content)

/-- A dead link with the `private` status, as the classifier produces and the
report writer records it. -/
def privateEntry : DeadLink :=
  ⟨"/movies/example/", "youtube", "abcdefghijk", some "private"⟩

def notFoundEntry : DeadLink :=
  ⟨"/movies/example/", "youtube", "aaaaaaaaaaa", none⟩

def blockedEntry : DeadLink :=
  ⟨"/movies/example/", "youtube", "bbbbbbbbbbb", some "blocked everywhere"⟩

/-- C5: the export cannot parse every block the writer produces.  On a block
holding a `private` entry — output the writer demonstrably emits, since the
classifier returns `private` — `re_row` matches neither with nor without its
optional `blocked everywhere` group, so the export aborts with the
row-match failure (`AttributeError` on `.groupdict()`) instead of producing a
row with an absent `blocked` detail.  Blocks holding only detail-less and
`blocked everywhere` entries do export, one row per entry. -/
theorem convert_output_file_crashes_on_private_status :
    convert_output_file_to_csv
        (write_dead_in_profile_text "userA" [privateEntry]) =
      Except.error ConvError.rowMatchFailed ∧
    convert_output_file_to_csv
        (write_dead_in_profile_text "userA" [notFoundEntry, blockedEntry]) =
      Except.ok
        [⟨"userA".data,
          "https://www.icheckmovies.com/movies/example/comments/".data,
          "youtube".data,
          "https://www.youtube.com/watch?v=aaaaaaaaaaa".data, none⟩,
         ⟨"userA".data,
          "https://www.icheckmovies.com/movies/example/comments/".data,
          "youtube".data,
          "https://www.youtube.com/watch?v=bbbbbbbbbbb".data,
          some "blocked everywhere".data⟩] :=
  ⟨rfl, rfl⟩
